import Mathlib

/-!
Verification of the exo-pos posture telemetry pipeline against its
natural-language specification.  The definitions below are shallow
embeddings of the Python sources in `scripts/`: angles are modelled as
rationals, JSON objects as finite partial maps from key strings to values,
and the stateful smoothing filter as explicit state passing.
-/

namespace ExoPos

/-! ## Smoothing filter (visualize_orientation.py, lines 167-171 and 330-344) -/

/-- Filter state: the module-level globals `smoothed_pitch`, `smoothed_roll`,
`smoothing_initialized` of visualize_orientation.py. -/
structure FilterState where
  smoothed_pitch : ℚ
  smoothed_roll : ℚ
  initialized : Bool
deriving Repr, DecidableEq

/-- `SMOOTHING_ALPHA = 0.5` (visualize_orientation.py line 171). -/
def SMOOTHING_ALPHA : ℚ := 1/2

/-- One smoothing update for an accepted posture sample
(visualize_orientation.py lines 330-339): on the first reading the raw
values are passed through and the flag is set; afterwards the EMA
`smoothed = α·new + (1-α)·old` is applied to pitch and roll independently. -/
def emaUpdate (st : FilterState) (pitch roll : ℚ) : FilterState :=
  if st.initialized = false then
    { smoothed_pitch := pitch, smoothed_roll := roll, initialized := true }
  else
    { smoothed_pitch := SMOOTHING_ALPHA * pitch + (1 - SMOOTHING_ALPHA) * st.smoothed_pitch,
      smoothed_roll := SMOOTHING_ALPHA * roll + (1 - SMOOTHING_ALPHA) * st.smoothed_roll,
      initialized := true }

/-- The sequence of smoothed (pitch, roll) outputs produced by feeding the
raw samples through the filter in order. -/
def runFilter (st : FilterState) : List (ℚ × ℚ) → List (ℚ × ℚ)
  | [] => []
  | s :: rest =>
    let st' := emaUpdate st s.1 s.2
    (st'.smoothed_pitch, st'.smoothed_roll) :: runFilter st' rest

/-- The filter state left after feeding a sequence of raw samples. -/
def runState (st : FilterState) : List (ℚ × ℚ) → FilterState
  | [] => st
  | s :: rest => runState (emaUpdate st s.1 s.2) rest

/-- Effect of `switch_serial_port` on the filter state
(visualize_orientation.py lines 139-154): the connection is replaced and
`smoothing_initialized` is set to `False`; the accumulated smoothed values
are left in place but are dead, since the next update passes through. -/
def switch_serial_port (st : FilterState) : FilterState :=
  { st with initialized := false }

/-! ## Posture bar banding (serial_monitor.py, lines 59-79) -/

/-- The four posture status labels printed by `display_posture_bar`. -/
inductive PostureBand
  | good
  | ok
  | slouch
  | bad
deriving Repr, DecidableEq

/-- The band selected by `display_posture_bar` (serial_monitor.py lines
65-76): an if/elif chain on strict comparisons of pitch against
`threshold - 2`, `threshold`, `threshold + 10`. -/
def display_posture_bar_band (pitch : ℚ) (threshold : ℚ) : PostureBand :=
  if pitch < threshold - 2 then PostureBand.good
  else if pitch < threshold then PostureBand.ok
  else if pitch < threshold + 10 then PostureBand.slouch
  else PostureBand.bad

/-- Modelled from the spec: the banding described by three cut points, with
GOOD strictly below `threshold - 2`, OK on `[threshold - 2, threshold)`,
SLOUCH on `[threshold, threshold + 10)` and BAD at or above
`threshold + 10`. -/
def spec_posture_band (pitch : ℚ) (threshold : ℚ) : PostureBand :=
  if pitch < threshold - 2 then PostureBand.good
  else if threshold - 2 ≤ pitch ∧ pitch < threshold then PostureBand.ok
  else if threshold ≤ pitch ∧ pitch < threshold + 10 then PostureBand.slouch
  else PostureBand.bad

/-! ## Alert colors (serial_monitor.py lines 24-44, visualize_orientation.py lines 235-244) -/

def Colors_RESET : String := "\x1b[0m"

def Colors_GREEN : String := "\x1b[92m"

def Colors_YELLOW : String := "\x1b[93m"

def Colors_ORANGE : String := "\x1b[38;5;214m"

def Colors_RED : String := "\x1b[91m"

def Colors_BRIGHT_RED : String := "\x1b[91;1m"

/-- The `colors` dict of serial_monitor.py `get_alert_color`. -/
def serial_alert_colors (k : String) : Option String :=
  if k = "none" then some Colors_GREEN
  else if k = "gentle" then some Colors_YELLOW
  else if k = "warning" then some Colors_ORANGE
  else if k = "urgent" then some Colors_RED
  else if k = "critical" then some Colors_BRIGHT_RED
  else Option.none

/-- serial_monitor.py `get_alert_color`: `colors.get(level_name, Colors.RESET)`. -/
def serial_get_alert_color (level_name : String) : String :=
  (serial_alert_colors level_name).getD Colors_RESET

/-- The `colors` dict of visualize_orientation.py `get_alert_color`. -/
def viz_alert_colors (k : String) : Option String :=
  if k = "none" then some "green"
  else if k = "gentle" then some "yellow"
  else if k = "warning" then some "orange"
  else if k = "urgent" then some "red"
  else if k = "critical" then some "darkred"
  else Option.none

/-- visualize_orientation.py `get_alert_color`: `colors.get(level_name, 'gray')`. -/
def viz_get_alert_color (level_name : String) : String :=
  (viz_alert_colors level_name).getD "gray"

/-! ## Parsed JSON objects

A decoded line that `json.loads` accepts is modelled as a partial map from
key strings to values; Python `dict` semantics (`get`, `in`, item
assignment, `update`) become operations on these maps. -/

/-- JSON values appearing on the wire (numbers, strings, booleans, null). -/
inductive JVal
  | num (q : ℚ)
  | str (s : String)
  | bool (b : Bool)
  | null
deriving Repr, DecidableEq

/-- A parsed JSON object: Python dict keyed by strings. -/
def JObj : Type := String → Option JVal

/-- Python `d[k] = v`. -/
def dictSet (d : JObj) (k : String) (v : JVal) : JObj :=
  fun k' => if k' = k then some v else d k'

/-- Python `cur.update(d)`: keys of `d` win, other keys keep `cur`'s value. -/
def dict_update (cur d : JObj) : JObj :=
  fun k =>
    match d k with
    | some v => some v
    | Option.none => cur k

/-- Numeric view of an optional JSON value. -/
def asNum : Option JVal → Option ℚ
  | some (JVal.num q) => some q
  | _ => Option.none

/-- Python `data.get(k, 0.0)` read as a number. -/
def pyGetNum (d : JObj) (k : String) : ℚ :=
  (asNum (d k)).getD 0

/-! ## Calibration lifecycle (visualize_orientation.py lines 311-329 and 626-645) -/

/-- The value of `current_data['calibration_status']`. -/
inductive CalStatus
  | none
  | calibrating
  | calibrated
deriving Repr, DecidableEq

/-- The calibration-related fields of `current_data`
(visualize_orientation.py lines 122-124). -/
structure CalData where
  calibration_status : CalStatus
  calibration_countdown : Option JVal
  calibration_complete_time : Option ℚ
deriving Repr, DecidableEq

/-- Initial calibration fields of `current_data`: all `None`. -/
def init_cal : CalData :=
  ⟨CalStatus.none, Option.none, Option.none⟩

/-- Effect of one decoded JSON line on the calibration fields in
`read_latest_data` (visualize_orientation.py lines 312-329): a line with a
`status` key is consumed by the calibration branch (`continue`), and a
posture line (both `pitch` and `roll` keys, no `status` key) clears a
`calibrated` status back to `None` before the smoothing update.  `now` is
the wall-clock time recorded on completion. -/
def calibration_step (now : ℚ) (st : CalData) (data : JObj) : CalData :=
  match data "status" with
  | some v =>
    if v = JVal.str "calibrating" then
      { st with calibration_status := CalStatus.calibrating,
                calibration_countdown := data "countdown_s" }
    else if v = JVal.str "calibrated" then
      { calibration_status := CalStatus.calibrated,
        calibration_countdown := Option.none,
        calibration_complete_time := some now }
    else st
  | Option.none =>
    match data "pitch", data "roll" with
    | some _, some _ =>
      if st.calibration_status = CalStatus.calibrated then
        { st with calibration_status := CalStatus.none }
      else st
    | _, _ => st

/-- The offsets announced on a `calibrated` line
(visualize_orientation.py line 322): `data.get('pitch_offset', 0)` and
`data.get('roll_offset', 0)`; they are printed, not stored. -/
def calibration_printed_offsets (data : JObj) : ℚ × ℚ :=
  (pyGetNum data "pitch_offset", pyGetNum data "roll_offset")

/-- Effect of `update_plot` on the calibration status
(visualize_orientation.py lines 634-645): a `calibrated` status is kept
while less than 2 seconds have passed since completion and cleared to
`None` afterwards (or when no completion time was recorded). -/
def update_plot_cal_clear (now : ℚ) (st : CalData) : CalData :=
  if st.calibration_status = CalStatus.calibrated then
    match st.calibration_complete_time with
    | some t =>
      if now - t < 2 then st
      else { st with calibration_status := CalStatus.none }
    | Option.none => { st with calibration_status := CalStatus.none }
  else st

/-- The `{"status":"calibrating","countdown_s":3}` line of the scenario. -/
def calibrating_msg : JObj :=
  fun k =>
    if k = "status" then some (JVal.str "calibrating")
    else if k = "countdown_s" then some (JVal.num 3)
    else Option.none

/-- The `{"status":"calibrated","pitch_offset":1.2,"roll_offset":-0.4}`
line of the scenario. -/
def calibrated_msg : JObj :=
  fun k =>
    if k = "status" then some (JVal.str "calibrated")
    else if k = "pitch_offset" then some (JVal.num (6/5))
    else if k = "roll_offset" then some (JVal.num (-2/5))
    else Option.none

/-- A plain posture line `{"pitch":0,"roll":0}`. -/
def posture_msg : JObj :=
  fun k =>
    if k = "pitch" then some (JVal.num 0)
    else if k = "roll" then some (JVal.num 0)
    else Option.none

/-! ## Smoothing an accepted sample before storing it
(visualize_orientation.py lines 330-344) -/

/-- The smoothing stage applied to an accepted posture sample: the filter
is updated from `data['pitch']` and `data['roll']`, then those two keys of
the sample are overwritten with the smoothed values
(`data['pitch'] = smoothed_pitch`, `data['roll'] = smoothed_roll`); all
other keys of the sample are untouched.  The result feeds
`current_data.update(data)`. -/
def smooth_and_store (st : FilterState) (data : JObj) : FilterState × JObj :=
  let st' := emaUpdate st (pyGetNum data "pitch") (pyGetNum data "roll")
  (st', dictSet (dictSet data "pitch" (JVal.num st'.smoothed_pitch))
          "roll" (JVal.num st'.smoothed_roll))

/-- The initial `current_data` record (visualize_orientation.py lines
114-125). -/
def initial_current_data : JObj :=
  fun k =>
    if k = "pitch" then some (JVal.num 0)
    else if k = "roll" then some (JVal.num 0)
    else if k = "pitch_raw" then some (JVal.num 0)
    else if k = "forward_slouch" then some (JVal.bool false)
    else if k = "alert_level_name" then some (JVal.str "none")
    else if k = "cumulative_slouch_s" then some (JVal.num 0)
    else if k = "threshold" then some (JVal.num 15)
    else if k = "calibration_status" then some JVal.null
    else if k = "calibration_countdown" then some JVal.null
    else if k = "calibration_complete_time" then some JVal.null
    else Option.none

/-! ## Diagnostic display row (diagnose_orientation.py lines 81-93) -/

/-- The row printed by diagnose_orientation.py for a posture line: after
the guard `'pitch' in data and 'roll' in data`, the displayed values are
`data.get('pitch', 0.0)`, `data.get('pitch_raw', 0.0)`,
`data.get('roll', 0.0)`, `data.get('roll_raw', 0.0)` — a missing
`pitch_raw` defaults to 0.0. -/
def diagnose_display_row (data : JObj) : Option (ℚ × ℚ × ℚ × ℚ) :=
  match data "pitch", data "roll" with
  | some _, some _ =>
    some (pyGetNum data "pitch", pyGetNum data "pitch_raw",
          pyGetNum data "roll", pyGetNum data "roll_raw")
  | _, _ => Option.none

/-- The concrete line `{"pitch":5,"roll":1}` — both posture keys present,
`pitch_raw` absent. -/
def sample_without_pitch_raw : JObj :=
  fun k =>
    if k = "pitch" then some (JVal.num 5)
    else if k = "roll" then some (JVal.num 1)
    else Option.none

/-! ## Orientation transform (visualize_orientation.py lines 177-233 and 558) -/

/-- `np.radians`: degrees to radians. -/
noncomputable def radians (angle : ℝ) : ℝ := angle * Real.pi / 180

/-- `rotation_matrix_x` (visualize_orientation.py lines 177-184): rotation
about the X axis (roll). -/
noncomputable def rotation_matrix_x (angle : ℝ) : Matrix (Fin 3) (Fin 3) ℝ :=
  !![1, 0, 0;
     0, Real.cos (radians angle), -(Real.sin (radians angle));
     0, Real.sin (radians angle), Real.cos (radians angle)]

/-- `rotation_matrix_y` (visualize_orientation.py lines 186-193): rotation
about the Y axis (pitch). -/
noncomputable def rotation_matrix_y (angle : ℝ) : Matrix (Fin 3) (Fin 3) ℝ :=
  !![Real.cos (radians angle), 0, Real.sin (radians angle);
     0, 1, 0;
     -(Real.sin (radians angle)), 0, Real.cos (radians angle)]

/-- The combined rotation of `rotate_cube` (visualize_orientation.py lines
224-226): `combined_rotation = rot_y @ rot_x`, i.e. pitch applied after
roll. -/
noncomputable def combined_rotation (pitch roll : ℝ) : Matrix (Fin 3) (Fin 3) ℝ :=
  rotation_matrix_y pitch * rotation_matrix_x roll

/-- `rotate_cube` (visualize_orientation.py lines 221-233): every vertex of
every face is multiplied by the combined rotation. -/
noncomputable def rotate_cube (faces : List (List (Fin 3 → ℝ))) (pitch roll : ℝ) :
    List (List (Fin 3 → ℝ)) :=
  faces.map (fun face => face.map (fun v => (combined_rotation pitch roll).mulVec v))

/-- The forward vector drawn by `update_plot` (visualize_orientation.py
line 558): `rotation_matrix_y(pitch) @ rotation_matrix_x(roll) @ [0, 1.5, 0]`. -/
noncomputable def forward_vector (pitch roll : ℝ) : Fin 3 → ℝ :=
  (rotation_matrix_y pitch).mulVec ((rotation_matrix_x roll).mulVec ![0, 1.5, 0])

/-! ## Serial mode vs log-file mode in read_latest_data
(visualize_orientation.py lines 291-346 and 351-395) -/

/-- One line as it reaches the JSON-parsing stage: either something
`json.loads` rejects (or an undecodable / empty line) or a parsed object. -/
inductive SerialLine
  | garbage
  | obj (data : JObj)

/-- The filter-state effect of one line in serial mode
(visualize_orientation.py lines 292-344): lines with a `status` key are
consumed by the calibration branch before the smoothing code, lines with
both `pitch` and `roll` keys update the filter, everything else leaves the
filter alone. -/
def line_filter_update (st : FilterState) (l : SerialLine) : FilterState :=
  match l with
  | SerialLine.garbage => st
  | SerialLine.obj data =>
    match data "status" with
    | some _ => st
    | Option.none =>
      match data "pitch", data "roll" with
      | some _, some _ => emaUpdate st (pyGetNum data "pitch") (pyGetNum data "roll")
      | _, _ => st

/-- Serial mode: the while-loop drains every available line and applies
`line_filter_update` to each in order. -/
def serial_mode_run (st : FilterState) (lines : List SerialLine) : FilterState :=
  lines.foldl line_filter_update st

/-- The scan of log-file mode (visualize_orientation.py lines 370-395):
the newly appended lines are walked in reverse; the first line that parses
and has both `pitch` and `roll` keys updates the filter once and the loop
breaks; all other lines are skipped.  (Unlike serial mode there is no
`status` check here.) -/
def log_mode_scan (st : FilterState) : List SerialLine → FilterState
  | [] => st
  | l :: rest =>
    match l with
    | SerialLine.garbage => log_mode_scan st rest
    | SerialLine.obj data =>
      match data "pitch", data "roll" with
      | some _, some _ => emaUpdate st (pyGetNum data "pitch") (pyGetNum data "roll")
      | _, _ => log_mode_scan st rest

/-- Log-file mode: `for line in reversed(new_lines)` followed by the scan. -/
def log_mode_run (st : FilterState) (lines : List SerialLine) : FilterState :=
  log_mode_scan st lines.reverse

/-- The (pitch, roll) payload of a line that log mode treats as a valid
posture line: parses and has both keys. -/
def log_posture_of : SerialLine → Option (ℚ × ℚ)
  | SerialLine.garbage => Option.none
  | SerialLine.obj data =>
    match data "pitch", data "roll" with
    | some _, some _ => some (pyGetNum data "pitch", pyGetNum data "roll")
    | _, _ => Option.none

/-- The (pitch, roll) payload of a line that serial mode feeds to the
filter: parses, has no `status` key, and has both posture keys. -/
def serial_posture_of : SerialLine → Option (ℚ × ℚ)
  | SerialLine.garbage => Option.none
  | SerialLine.obj data =>
    match data "status" with
    | some _ => Option.none
    | Option.none =>
      match data "pitch", data "roll" with
      | some _, some _ => some (pyGetNum data "pitch", pyGetNum data "roll")
      | _, _ => Option.none

/-! ## Byte-level line decoding (serial_monitor.py lines 195-216,
diagnose_orientation.py lines 69-98)

Bytes are naturals < 256 and decoded text is a list of code points.
`utf8Tokens` turns a byte list into a token stream in which `some c` is a
decoded code point and `Option.none` marks one undecodable byte; the three
`str.decode` error policies are readings of that stream. -/

/-- Is `b` a UTF-8 continuation byte (0x80-0xBF)? -/
def isCont (b : Nat) : Bool := 0x80 ≤ b && b ≤ 0xBF

/-- Payload bits of a continuation byte. -/
def contVal (b : Nat) : Nat := b - 0x80

/-- Valid first continuation byte for a three-byte lead (excludes overlong
encodings after 0xE0 and surrogates after 0xED). -/
def lead3Ok (b c1 : Nat) : Bool :=
  if b = 0xE0 then 0xA0 ≤ c1 && c1 ≤ 0xBF
  else if b = 0xED then 0x80 ≤ c1 && c1 ≤ 0x9F
  else isCont c1

/-- Valid first continuation byte for a four-byte lead (excludes overlong
encodings after 0xF0 and code points beyond U+10FFFF after 0xF4). -/
def lead4Ok (b c1 : Nat) : Bool :=
  if b = 0xF0 then 0x90 ≤ c1 && c1 ≤ 0xBF
  else if b = 0xF4 then 0x80 ≤ c1 && c1 ≤ 0x8F
  else isCont c1

/-- UTF-8 token stream of a byte list, driven by a fuel counter for
structural recursion: each step consumes one complete valid sequence and
emits its code point, or consumes a single undecodable byte and emits
`Option.none`.  Every step consumes at least one byte, so fuel equal to the
length of the byte list (as supplied by `utf8Tokens`) never runs out. -/
def utf8TokensF : Nat → List Nat → List (Option Nat)
  | 0, _ => []
  | _, [] => []
  | fuel + 1, b :: rest =>
    if b ≤ 0x7F then some b :: utf8TokensF fuel rest
    else if 0xC2 ≤ b && b ≤ 0xDF then
      match rest with
      | c1 :: rest1 =>
        if isCont c1 then some ((b - 0xC0) * 0x40 + contVal c1) :: utf8TokensF fuel rest1
        else Option.none :: utf8TokensF fuel (c1 :: rest1)
      | [] => [Option.none]
    else if 0xE0 ≤ b && b ≤ 0xEF then
      match rest with
      | c1 :: c2 :: rest2 =>
        if lead3Ok b c1 && isCont c2 then
          some ((b - 0xE0) * 0x1000 + contVal c1 * 0x40 + contVal c2) :: utf8TokensF fuel rest2
        else Option.none :: utf8TokensF fuel (c1 :: c2 :: rest2)
      | [c1] => Option.none :: utf8TokensF fuel [c1]
      | [] => [Option.none]
    else if 0xF0 ≤ b && b ≤ 0xF4 then
      match rest with
      | c1 :: c2 :: c3 :: rest3 =>
        if lead4Ok b c1 && isCont c2 && isCont c3 then
          some ((b - 0xF0) * 0x40000 + contVal c1 * 0x1000 + contVal c2 * 0x40 + contVal c3)
            :: utf8TokensF fuel rest3
        else Option.none :: utf8TokensF fuel (c1 :: c2 :: c3 :: rest3)
      | [c1, c2] => Option.none :: utf8TokensF fuel [c1, c2]
      | [c1] => Option.none :: utf8TokensF fuel [c1]
      | [] => [Option.none]
    else Option.none :: utf8TokensF fuel rest

/-- UTF-8 token stream of a byte list. -/
def utf8Tokens (bs : List Nat) : List (Option Nat) :=
  utf8TokensF bs.length bs

/-- Python `bytes.decode('utf-8')` — strict, as called in serial_monitor.py
line 197 and visualize_orientation.py line 294: any undecodable byte
raises, modelled as `Option.none`. -/
def pyDecodeStrict (bs : List Nat) : Option (List Nat) :=
  if (utf8Tokens bs).all Option.isSome then some ((utf8Tokens bs).filterMap id)
  else Option.none

/-- Python `bytes.decode('utf-8', errors='ignore')` — diagnose_orientation.py
line 71: undecodable bytes are dropped. -/
def pyDecodeIgnore (bs : List Nat) : List Nat :=
  (utf8Tokens bs).filterMap id

/-- Modelled from the spec: "invalid byte sequences are decoded permissively
(replacing undecodable bytes)" — every undecodable byte becomes U+FFFD.
No script under src decodes with this policy. -/
def specDecodeReplace (bs : List Nat) : List Nat :=
  (utf8Tokens bs).map (fun t => t.getD 0xFFFD)

/-- ASCII whitespace for Python `str.strip()`. -/
def isPySpace (c : Nat) : Bool :=
  c = 32 || c = 9 || c = 10 || c = 13 || c = 11 || c = 12

/-- Python `str.strip()` on a list of code points. -/
def pyStrip (l : List Nat) : List Nat :=
  ((l.dropWhile isPySpace).reverse.dropWhile isPySpace).reverse

/-- What serial_monitor.py does with one received line. -/
inductive LineOutcome
  | skipped
  | rawPrinted (line : List Nat)
  | displayed (data : JObj)

/-- One iteration of the serial_monitor.py read loop (lines 195-216) on the
raw bytes of one line, with `parse` standing for `json.loads`: a
`UnicodeDecodeError` is caught and the line skipped; an empty stripped line
is skipped; a line `json.loads` rejects is printed raw; a parsed object is
displayed. -/
def serial_monitor_line_step (parse : List Nat → Option JObj) (bytes : List Nat) :
    LineOutcome :=
  match pyDecodeStrict bytes with
  | Option.none => LineOutcome.skipped
  | some cps =>
    if pyStrip cps = [] then LineOutcome.skipped
    else
      match parse (pyStrip cps) with
      | some data => LineOutcome.displayed data
      | Option.none => LineOutcome.rawPrinted (pyStrip cps)

/-- What diagnose_orientation.py does with one received line. -/
inductive DiagOutcome
  | skipped
  | parsed (data : JObj)
  | infoPrinted (line : List Nat)
  | dropped (line : List Nat)

/-- Code points of a literal string. -/
def strOf (s : String) : List Nat := s.data.map Char.toNat

/-- Does the second list start with the first? -/
def startsWith : List Nat → List Nat → Bool
  | [], _ => true
  | _ :: _, [] => false
  | p :: ps, b :: bs => p == b && startsWith ps bs

/-- Python substring test `pat in line`. -/
def hasSub (pat : List Nat) : List Nat → Bool
  | [] => pat.isEmpty
  | b :: rest => startsWith pat (b :: rest) || hasSub pat rest

/-- The diagnose_orientation.py test `'status' in line or 'debug' in line
or 'error' in line` (line 97). -/
def containsMarker (line : List Nat) : Bool :=
  hasSub (strOf "status") line || hasSub (strOf "debug") line ||
    hasSub (strOf "error") line

/-- One iteration of the diagnose_orientation.py read loop (lines 69-98):
bytes are decoded with errors ignored, an empty stripped line is skipped, a
parsed object is displayed, and a line `json.loads` rejects is printed as
`[INFO]` only when it contains a status/debug/error marker — otherwise it
is silently dropped. -/
def diagnose_line_step (parse : List Nat → Option JObj) (bytes : List Nat) :
    DiagOutcome :=
  if pyStrip (pyDecodeIgnore bytes) = [] then DiagOutcome.skipped
  else
    match parse (pyStrip (pyDecodeIgnore bytes)) with
    | some data => DiagOutcome.parsed data
    | Option.none =>
      if containsMarker (pyStrip (pyDecodeIgnore bytes)) then
        DiagOutcome.infoPrinted (pyStrip (pyDecodeIgnore bytes))
      else DiagOutcome.dropped (pyStrip (pyDecodeIgnore bytes))

end ExoPos

namespace ExoPos

theorem runFilter_cold_head (st : FilterState) (h : st.initialized = false)
    (p r : ℚ) (rest : List (ℚ × ℚ)) :
    runFilter st ((p, r) :: rest)
      = (p, r) :: runFilter ⟨p, r, true⟩ rest := by
  simp [runFilter, emaUpdate, h]

theorem runFilter_warm_head (st : FilterState) (h : st.initialized = true)
    (p r : ℚ) (rest : List (ℚ × ℚ)) :
    runFilter st ((p, r) :: rest)
      = (SMOOTHING_ALPHA * p + (1 - SMOOTHING_ALPHA) * st.smoothed_pitch,
         SMOOTHING_ALPHA * r + (1 - SMOOTHING_ALPHA) * st.smoothed_roll)
        :: runFilter ⟨SMOOTHING_ALPHA * p + (1 - SMOOTHING_ALPHA) * st.smoothed_pitch,
                      SMOOTHING_ALPHA * r + (1 - SMOOTHING_ALPHA) * st.smoothed_roll, true⟩ rest := by
  simp [runFilter, emaUpdate, h]

theorem emaUpdate_initialized (st : FilterState) (p r : ℚ) :
    (emaUpdate st p r).initialized = true := by
  unfold emaUpdate
  split <;> rfl

theorem runFilter_warm (l : List (ℚ × ℚ)) :
    ∀ (st : FilterState), st.initialized = true →
    ∀ i : ℕ, i + 1 < l.length →
    (runFilter st l).getD (i + 1) (0, 0)
      = (SMOOTHING_ALPHA * (l.getD (i + 1) (0, 0)).1
           + (1 - SMOOTHING_ALPHA) * ((runFilter st l).getD i (0, 0)).1,
         SMOOTHING_ALPHA * (l.getD (i + 1) (0, 0)).2
           + (1 - SMOOTHING_ALPHA) * ((runFilter st l).getD i (0, 0)).2) := by
  induction l with
  | nil => intro st _ i hi; simp at hi
  | cons s rest ih =>
    intro st hst i hi
    obtain ⟨p, r⟩ := s
    rw [runFilter_warm_head st hst p r rest]
    cases i with
    | zero =>
      cases rest with
      | nil => simp at hi
      | cons s1 rest1 =>
        obtain ⟨p1, r1⟩ := s1
        rw [runFilter_warm_head _ rfl p1 r1 rest1]
        simp
    | succ j =>
      have hj : j + 1 < rest.length := by
        simp at hi; omega
      have := ih ⟨SMOOTHING_ALPHA * p + (1 - SMOOTHING_ALPHA) * st.smoothed_pitch,
                  SMOOTHING_ALPHA * r + (1 - SMOOTHING_ALPHA) * st.smoothed_roll, true⟩ rfl j hj
      simpa using this

/-- C1: starting from an uninitialized filter state, the smoothed output at
index 0 equals the raw sample at index 0 (cold start passes the first
sample through), and for every later index the output satisfies
`out[i+1] = α·raw[i+1] + (1-α)·out[i]` independently on pitch and roll,
with `α = SMOOTHING_ALPHA = 0.5`. -/
theorem smoothing_cold_start_and_recurrence
    (st0 : FilterState) (h0 : st0.initialized = false)
    (samples : List (ℚ × ℚ)) (i : ℕ) :
    SMOOTHING_ALPHA = 1/2 ∧
    (0 < samples.length →
      (runFilter st0 samples).getD 0 (0, 0) = samples.getD 0 (0, 0)) ∧
    (i + 1 < samples.length →
      (runFilter st0 samples).getD (i + 1) (0, 0)
        = (SMOOTHING_ALPHA * (samples.getD (i + 1) (0, 0)).1
             + (1 - SMOOTHING_ALPHA) * ((runFilter st0 samples).getD i (0, 0)).1,
           SMOOTHING_ALPHA * (samples.getD (i + 1) (0, 0)).2
             + (1 - SMOOTHING_ALPHA) * ((runFilter st0 samples).getD i (0, 0)).2)) := by
  refine ⟨rfl, ?_, ?_⟩
  · intro hlen
    cases samples with
    | nil => simp at hlen
    | cons s rest =>
      obtain ⟨p, r⟩ := s
      rw [runFilter_cold_head st0 h0 p r rest]
      simp
  · intro hi
    cases samples with
    | nil => simp at hi
    | cons s rest =>
      obtain ⟨p, r⟩ := s
      rw [runFilter_cold_head st0 h0 p r rest]
      cases i with
      | zero =>
        cases rest with
        | nil => simp at hi
        | cons s1 rest1 =>
          obtain ⟨p1, r1⟩ := s1
          rw [runFilter_warm_head _ rfl p1 r1 rest1]
          simp
      | succ j =>
        have hj : j + 1 < rest.length := by
          simp at hi; omega
        have := runFilter_warm rest ⟨p, r, true⟩ rfl j hj
        simpa using this

/-- Witness for C1 at a concrete input: filter the samples
[(1,2), (3,4)] from a cold state. -/
theorem smoothing_cold_start_and_recurrence_witness :
    (runFilter ⟨0, 0, false⟩ [(1, 2), (3, 4)]).getD 0 (0, 0)
      = ([((1 : ℚ), (2 : ℚ)), (3, 4)]).getD 0 (0, 0) ∧
    (runFilter ⟨0, 0, false⟩ [(1, 2), (3, 4)]).getD 1 (0, 0)
      = (SMOOTHING_ALPHA * (([((1 : ℚ), (2 : ℚ)), (3, 4)]).getD 1 (0, 0)).1
           + (1 - SMOOTHING_ALPHA) * ((runFilter ⟨0, 0, false⟩ [(1, 2), (3, 4)]).getD 0 (0, 0)).1,
         SMOOTHING_ALPHA * (([((1 : ℚ), (2 : ℚ)), (3, 4)]).getD 1 (0, 0)).2
           + (1 - SMOOTHING_ALPHA) * ((runFilter ⟨0, 0, false⟩ [(1, 2), (3, 4)]).getD 0 (0, 0)).2) := by
  have h := smoothing_cold_start_and_recurrence ⟨0, 0, false⟩ rfl [(1, 2), (3, 4)] 0
  exact ⟨h.2.1 (by decide), h.2.2 (by decide)⟩

/-- C2: switching the serial port resets the filter state (the
`initialized` flag is set to false), so the first sample processed after
the switch passes through unmodified, independent of the entire prior
history of the filter. -/
theorem port_switch_cold_start
    (st0 : FilterState) (history : List (ℚ × ℚ)) (p r : ℚ) (rest : List (ℚ × ℚ)) :
    (switch_serial_port (runState st0 history)).initialized = false ∧
    (runFilter (switch_serial_port (runState st0 history)) ((p, r) :: rest)).getD 0 (0, 0)
      = (p, r) := by
  refine ⟨rfl, ?_⟩
  rw [runFilter_cold_head _ rfl p r rest]
  simp

/-- C5: the band rendered by `display_posture_bar` agrees with the
three-cut-point banding of the spec for every pitch and threshold, and a
pitch exactly equal to the threshold is classified SLOUCH (the threshold is
inclusive on the slouch side). -/
theorem posture_band_cut_points :
    (∀ pitch threshold : ℚ,
      display_posture_bar_band pitch threshold = spec_posture_band pitch threshold) ∧
    (∀ threshold : ℚ,
      display_posture_bar_band threshold threshold = PostureBand.slouch) := by
  constructor
  · intro p t
    rcases lt_or_ge p (t - 2) with h1 | h1
    · simp [display_posture_bar_band, spec_posture_band, h1]
    · have h1' : ¬ p < t - 2 := not_lt.mpr h1
      rcases lt_or_ge p t with h2 | h2
      · simp [display_posture_bar_band, spec_posture_band, h1, h1', h2]
      · have h2' : ¬ p < t := not_lt.mpr h2
        rcases lt_or_ge p (t + 10) with h3 | h3
        · simp [display_posture_bar_band, spec_posture_band, h1', h2, h2', h3]
        · have h3' : ¬ p < t + 10 := not_lt.mpr h3
          simp [display_posture_bar_band, spec_posture_band, h1', h2', h3']
  · intro t
    have h1 : ¬ t < t - 2 := by linarith
    have h2 : ¬ t < t := lt_irrefl t
    have h3 : t < t + 10 := by linarith
    simp [display_posture_bar_band, h1, h2, h3]

/-- C9: the alert-color lookups are total: every level name outside the
five known levels maps to the default color (terminal reset in
serial_monitor.py, gray in visualize_orientation.py), and the five known
levels map to their configured colors. -/
theorem alert_color_total (s : String)
    (h1 : s ≠ "none") (h2 : s ≠ "gentle") (h3 : s ≠ "warning")
    (h4 : s ≠ "urgent") (h5 : s ≠ "critical") :
    serial_get_alert_color s = Colors_RESET ∧
    viz_get_alert_color s = "gray" ∧
    serial_get_alert_color "none" = Colors_GREEN ∧
    serial_get_alert_color "critical" = Colors_BRIGHT_RED ∧
    viz_get_alert_color "none" = "green" ∧
    viz_get_alert_color "critical" = "darkred" := by
  refine ⟨?_, ?_, rfl, rfl, rfl, rfl⟩
  · simp [serial_get_alert_color, serial_alert_colors, h1, h2, h3, h4, h5]
  · simp [viz_get_alert_color, viz_alert_colors, h1, h2, h3, h4, h5]

/-- Witness for C9 at the concrete unknown level name "bogus". -/
theorem alert_color_total_witness :
    serial_get_alert_color "bogus" = Colors_RESET ∧
    viz_get_alert_color "bogus" = "gray" := by
  have h := alert_color_total "bogus"
    (by decide) (by decide) (by decide) (by decide) (by decide)
  exact ⟨h.1, h.2.1⟩

/-- C6 counterexample: after the calibrating line and the calibrated line
of the scenario, the very next posture sample — which is not a calibrating
event — reverts the status from `calibrated` back to `None`
(visualize_orientation.py lines 327-329). -/
theorem calibrated_reverts_on_posture :
    (calibration_step 0 init_cal calibrating_msg).calibration_status
      = CalStatus.calibrating ∧
    (calibration_step 1 (calibration_step 0 init_cal calibrating_msg)
        calibrated_msg).calibration_status = CalStatus.calibrated ∧
    (calibration_step 2
        (calibration_step 1 (calibration_step 0 init_cal calibrating_msg) calibrated_msg)
        posture_msg).calibration_status = CalStatus.none := by
  exact ⟨rfl, rfl, rfl⟩

/-- C6 amended: a calibrating status line moves the state to
`calibrating` with the countdown stored, a calibrated status line moves any
state to `calibrated` with the completion time recorded (the offsets are
printed, not stored), but the `calibrated` status does not persist until a
new calibrating event: the next posture sample clears it to `None`, and the
display loop clears it once 2 seconds have passed since completion. -/
theorem calibration_lifecycle (now : ℚ) (st : CalData) :
    (calibration_step now st calibrating_msg
        = { st with calibration_status := CalStatus.calibrating,
                    calibration_countdown := some (JVal.num 3) }) ∧
    (calibration_step now st calibrated_msg
        = ⟨CalStatus.calibrated, Option.none, some now⟩) ∧
    calibration_printed_offsets calibrated_msg = (6/5, -2/5) ∧
    ((calibration_step now st posture_msg).calibration_status
        = if st.calibration_status = CalStatus.calibrated then CalStatus.none
          else st.calibration_status) ∧
    (∀ t : ℚ, update_plot_cal_clear now ⟨CalStatus.calibrated, Option.none, some t⟩
        = if now - t < 2 then ⟨CalStatus.calibrated, Option.none, some t⟩
          else ⟨CalStatus.none, Option.none, some t⟩) := by
  refine ⟨rfl, rfl, rfl, ?_, ?_⟩
  · by_cases h : st.calibration_status = CalStatus.calibrated
    · show (if st.calibration_status = CalStatus.calibrated
          then { st with calibration_status := CalStatus.none } else st).calibration_status = _
      simp [h]
    · show (if st.calibration_status = CalStatus.calibrated
          then { st with calibration_status := CalStatus.none } else st).calibration_status = _
      simp [h]
  · intro t
    by_cases h : now - t < 2 <;>
      simp [update_plot_cal_clear, h]

/-- C7: the smoothing stage replaces only the `pitch` and `roll` fields of
an accepted sample with the smoothed values; every other field of the
sample (in particular `pitch_raw`) passes through unchanged, both in the
stored sample and in the merged `current_data` record. -/
theorem smoothing_preserves_other_fields (st : FilterState) (data : JObj)
    (k : String) (hk1 : k ≠ "pitch") (hk2 : k ≠ "roll") :
    (smooth_and_store st data).2 k = data k ∧
    (smooth_and_store st data).2 "pitch"
      = some (JVal.num (smooth_and_store st data).1.smoothed_pitch) ∧
    (smooth_and_store st data).2 "roll"
      = some (JVal.num (smooth_and_store st data).1.smoothed_roll) ∧
    (∀ (cur : JObj) (v : JVal), data k = some v →
      dict_update cur (smooth_and_store st data).2 k = some v) := by
  refine ⟨?_, ?_, ?_, ?_⟩
  · simp [smooth_and_store, dictSet, hk1, hk2]
  · simp [smooth_and_store, dictSet]
  · simp [smooth_and_store, dictSet]
  · intro cur v hv
    simp [dict_update, smooth_and_store, dictSet, hk1, hk2, hv]

/-- Witness for C7: the field `pitch_raw` of a concrete sample survives the
smoothing stage unchanged while `pitch` is replaced by the smoothed
value. -/
theorem smoothing_preserves_other_fields_witness :
    (smooth_and_store ⟨0, 0, false⟩ calibrating_msg).2 "countdown_s"
      = calibrating_msg "countdown_s" ∧
    (smooth_and_store ⟨0, 0, false⟩ calibrating_msg).2 "pitch"
      = some (JVal.num (smooth_and_store ⟨0, 0, false⟩ calibrating_msg).1.smoothed_pitch) := by
  have h := smoothing_preserves_other_fields ⟨0, 0, false⟩ calibrating_msg
    "countdown_s" (by decide) (by decide)
  exact ⟨h.1, h.2.1⟩

/-- C8 counterexample: for the line `{"pitch":5,"roll":1}` (no `pitch_raw`
key) the diagnose display row shows `pitch_raw = 0`, not the pitch value 5:
the default is 0.0, not the `pitch` value. -/
theorem pitch_raw_default_counterexample :
    diagnose_display_row sample_without_pitch_raw = some (5, 0, 1, 0) ∧
    ((0 : ℚ) ≠ 5) := by
  exact ⟨rfl, by norm_num⟩

/-- C8 amended: for every decoded line containing both `pitch` and `roll`
keys but no `pitch_raw` key, the displayed `pitch_raw` defaults to 0.0 in
diagnose_orientation.py (`data.get('pitch_raw', 0.0)`), and in
visualize_orientation.py the merged record keeps the previous
`current_data` value of `pitch_raw` — initially 0 — rather than the
`pitch` value. -/
theorem pitch_raw_defaults_to_zero (data : JObj) (p : ℚ) (st : FilterState)
    (h1 : data "pitch" = some (JVal.num p))
    (h2 : (data "roll").isSome = true)
    (h3 : data "pitch_raw" = Option.none) :
    diagnose_display_row data
      = some (p, 0, pyGetNum data "roll", pyGetNum data "roll_raw") ∧
    dict_update initial_current_data (smooth_and_store st data).2 "pitch_raw"
      = some (JVal.num 0) := by
  constructor
  · obtain ⟨v, hv⟩ := Option.isSome_iff_exists.mp h2
    simp [diagnose_display_row, h1, hv, pyGetNum, asNum, h3]
  · simp [dict_update, smooth_and_store, dictSet, h3]
    rfl

/-- Witness for C8 amended at the concrete line `{"pitch":5,"roll":1}`. -/
theorem pitch_raw_defaults_to_zero_witness :
    diagnose_display_row sample_without_pitch_raw
      = some (5, 0, pyGetNum sample_without_pitch_raw "roll",
              pyGetNum sample_without_pitch_raw "roll_raw") ∧
    dict_update initial_current_data
        (smooth_and_store ⟨0, 0, false⟩ sample_without_pitch_raw).2 "pitch_raw"
      = some (JVal.num 0) :=
  pitch_raw_defaults_to_zero sample_without_pitch_raw 5 ⟨0, 0, false⟩ rfl rfl rfl

theorem line_filter_update_eq (st : FilterState) (l : SerialLine) :
    line_filter_update st l
      = match serial_posture_of l with
        | some pr => emaUpdate st pr.1 pr.2
        | Option.none => st := by
  cases l with
  | garbage => rfl
  | obj data =>
    cases hs : data "status" with
    | some v => simp [line_filter_update, serial_posture_of, hs]
    | none =>
      cases hp : data "pitch" with
      | none => simp [line_filter_update, serial_posture_of, hs, hp]
      | some vp =>
        cases hr : data "roll" with
        | none => simp [line_filter_update, serial_posture_of, hs, hp, hr]
        | some vr => simp [line_filter_update, serial_posture_of, hs, hp, hr]

theorem log_mode_scan_eq (l : List SerialLine) (st : FilterState) :
    log_mode_scan st l
      = match (l.filterMap log_posture_of).head? with
        | some pr => emaUpdate st pr.1 pr.2
        | Option.none => st := by
  induction l with
  | nil => rfl
  | cons x rest ih =>
    cases x with
    | garbage => simpa [log_mode_scan, log_posture_of] using ih
    | obj data =>
      cases hp : data "pitch" with
      | none => simpa [log_mode_scan, log_posture_of, hp] using ih
      | some vp =>
        cases hr : data "roll" with
        | none => simpa [log_mode_scan, log_posture_of, hp, hr] using ih
        | some vr => simp [log_mode_scan, log_posture_of, hp, hr]

theorem serial_mode_run_eq (l : List SerialLine) (st : FilterState) :
    serial_mode_run st l
      = (l.filterMap serial_posture_of).foldl (fun s pr => emaUpdate s pr.1 pr.2) st := by
  induction l generalizing st with
  | nil => rfl
  | cons x rest ih =>
    show rest.foldl line_filter_update (line_filter_update st x) = _
    rw [line_filter_update_eq st x]
    cases hx : serial_posture_of x with
    | none =>
      simp only [List.filterMap_cons, hx]
      exact ih st
    | some pr =>
      simp only [List.filterMap_cons, hx, List.foldl_cons]
      exact ih (emaUpdate st pr.1 pr.2)

theorem radians_zero : radians 0 = 0 := by
  simp [radians]

theorem radians_90 : radians 90 = Real.pi / 2 := by
  unfold radians; ring

theorem rotation_matrix_x_zero : rotation_matrix_x 0 = 1 := by
  rw [Matrix.one_fin_three]
  simp [rotation_matrix_x, radians_zero]

theorem rotation_matrix_y_zero : rotation_matrix_y 0 = 1 := by
  rw [Matrix.one_fin_three]
  simp [rotation_matrix_y, radians_zero]

theorem combined_entry_01 : combined_rotation 90 90 0 1 = 1 := by
  simp [combined_rotation, rotation_matrix_y, rotation_matrix_x, radians_90,
    Matrix.mul_apply, Fin.sum_univ_three, Real.cos_pi_div_two, Real.sin_pi_div_two]

theorem reversed_entry_01 : (rotation_matrix_x 90 * rotation_matrix_y 90) 0 1 = 0 := by
  simp [rotation_matrix_y, rotation_matrix_x, radians_90,
    Matrix.mul_apply, Fin.sum_univ_three, Real.cos_pi_div_two, Real.sin_pi_div_two]

/-- C3: the combined orientation rotation is the pitch rotation (about Y)
applied after the roll rotation (about X), `R = R_pitch · R_roll`, and not
the reverse order (at pitch = roll = 90° the two orders differ);
single-axis inputs reduce to the directly computed single-axis matrices;
and the forward vector is the same composed rotation applied to the fixed
forward vector `[0, 1.5, 0]`. -/
theorem rotation_composition_order :
    (∀ (faces : List (List (Fin 3 → ℝ))) (pitch roll : ℝ),
      rotate_cube faces pitch roll
        = faces.map (fun face => face.map (fun v =>
            (rotation_matrix_y pitch * rotation_matrix_x roll).mulVec v))) ∧
    (∀ pitch : ℝ, combined_rotation pitch 0 = rotation_matrix_y pitch) ∧
    (∀ roll : ℝ, combined_rotation 0 roll = rotation_matrix_x roll) ∧
    combined_rotation 90 90 ≠ rotation_matrix_x 90 * rotation_matrix_y 90 ∧
    (∀ pitch roll : ℝ,
      forward_vector pitch roll = (combined_rotation pitch roll).mulVec ![0, 1.5, 0]) := by
  refine ⟨fun _ _ _ => rfl, ?_, ?_, ?_, ?_⟩
  · intro pitch
    rw [combined_rotation, rotation_matrix_x_zero, mul_one]
  · intro roll
    rw [combined_rotation, rotation_matrix_y_zero, one_mul]
  · intro h
    have h10 : (1 : ℝ) = 0 := by
      rw [← combined_entry_01, h, reversed_entry_01]
    exact one_ne_zero h10
  · intro pitch roll
    exact Matrix.mulVec_mulVec _ _ _

/-- C10: in log-file mode each call updates the smoothing filter at most
once — the final filter state is the previous state when the batch
contains no valid posture line, and otherwise one EMA step taken with the
most recent valid posture line of the batch (all earlier posture lines of
the batch are discarded); in serial mode the filter is stepped with every
posture line read, in order. -/
theorem log_mode_single_update (st : FilterState) (lines : List SerialLine) :
    log_mode_run st lines
      = (match (lines.filterMap log_posture_of).getLast? with
         | some pr => emaUpdate st pr.1 pr.2
         | Option.none => st) ∧
    serial_mode_run st lines
      = (lines.filterMap serial_posture_of).foldl
          (fun s pr => emaUpdate s pr.1 pr.2) st := by
  refine ⟨?_, serial_mode_run_eq lines st⟩
  rw [log_mode_run, log_mode_scan_eq, List.filterMap_reverse, List.head?_reverse]

/-- C4 counterexample: on the single undecodable byte 0xFF the code does
not replace the byte — diagnose_orientation.py drops it (errors ignored,
yielding the empty string) where replacement would yield U+FFFD, and
serial_monitor.py skips the whole line (strict decode, exception caught)
rather than producing any diagnostic line. -/
theorem decode_replace_counterexample :
    pyDecodeIgnore [0xFF] = [] ∧
    specDecodeReplace [0xFF] = [0xFFFD] ∧
    pyDecodeIgnore [0xFF] ≠ specDecodeReplace [0xFF] ∧
    serial_monitor_line_step (fun _ => Option.none) [0xFF] = LineOutcome.skipped := by
  exact ⟨rfl, rfl, by decide, rfl⟩

/-- C4 amended: decoding never propagates an exception, but invalid bytes
are dropped, not replaced: serial_monitor.py decodes strictly, catches the
decode error and skips the line entirely; diagnose_orientation.py decodes
with errors ignored (undecodable bytes removed, and on fully decodable
input the permissive decode agrees with the strict one); a non-empty line
that fails JSON parsing is printed as free text by serial_monitor.py, while
diagnose_orientation.py prints it only when it contains a
status/debug/error marker and silently drops it otherwise. -/
theorem decode_never_raises (parse : List Nat → Option JObj) (bytes : List Nat) :
    (pyDecodeStrict bytes = Option.none →
      serial_monitor_line_step parse bytes = LineOutcome.skipped) ∧
    (∀ cps, pyDecodeStrict bytes = some cps → pyDecodeIgnore bytes = cps) ∧
    (∀ cps, pyDecodeStrict bytes = some cps → pyStrip cps ≠ [] →
      parse (pyStrip cps) = Option.none →
      serial_monitor_line_step parse bytes = LineOutcome.rawPrinted (pyStrip cps)) ∧
    (pyStrip (pyDecodeIgnore bytes) ≠ [] →
      parse (pyStrip (pyDecodeIgnore bytes)) = Option.none →
      (containsMarker (pyStrip (pyDecodeIgnore bytes)) = true →
        diagnose_line_step parse bytes
          = DiagOutcome.infoPrinted (pyStrip (pyDecodeIgnore bytes))) ∧
      (containsMarker (pyStrip (pyDecodeIgnore bytes)) = false →
        diagnose_line_step parse bytes
          = DiagOutcome.dropped (pyStrip (pyDecodeIgnore bytes)))) := by
  refine ⟨?_, ?_, ?_, ?_⟩
  · intro h
    unfold serial_monitor_line_step
    rw [h]
  · intro cps h
    unfold pyDecodeStrict at h
    split_ifs at h with hall
    exact Option.some.inj h
  · intro cps h hne hp
    unfold serial_monitor_line_step
    rw [h]
    simp [hne, hp]
  · intro hne hp
    constructor <;> intro hm <;>
      simp [diagnose_line_step, hne, hp, hm]

/-- Witness for C4 amended at concrete inputs: the single letter "h"
(byte 104) and the truncated two-byte lead 0xC3. -/
theorem decode_never_raises_witness :
    serial_monitor_line_step (fun _ => Option.none) [104]
      = LineOutcome.rawPrinted [104] ∧
    pyDecodeIgnore [104] = [104] ∧
    diagnose_line_step (fun _ => Option.none) [104] = DiagOutcome.dropped [104] ∧
    serial_monitor_line_step (fun _ => Option.none) [0xC3] = LineOutcome.skipped := by
  have h1 := decode_never_raises (fun _ => Option.none) [104]
  have h2 := decode_never_raises (fun _ => Option.none) [0xC3]
  exact ⟨h1.2.2.1 [104] rfl (by decide) rfl,
         h1.2.1 [104] rfl,
         (h1.2.2.2 (by decide) rfl).2 (by decide),
         h2.1 rfl⟩

end ExoPos
